import Mathlib

set_option maxRecDepth 4000
set_option allowUnsafeReducibility true
attribute [local semireducible] Rat.mul Rat.add Rat.sub Rat.div Rat.neg Rat.inv

/-!
Shallow embedding of the Enliven Residency hotel-booking backend.

Sources embedded:
- src/server.js              (main entrypoint: login, booking creation,
                              protected CRUD routes, auth middleware)
- src/models/booking.js      (Mongoose booking schema)
- src/models/user.js         (Mongoose user schema)
- src/unnamed/part_000       (a second copy of the server with a fuller
                              ten-rule validation block in the booking
                              creation handler and a richer success response)

Modelling conventions:
- JavaScript runtime values arriving in a JSON request body are modelled by
  `JSValue` (undefined, null, booleans, numbers, strings).  JSON never
  carries NaN, so the number constructor holds an exact rational; NaN only
  arises from coercions and arithmetic and is modelled by `none` in
  `JSNum := Option Rat`.
- IEEE doubles are modelled as exact rationals.  Every concrete value the
  claims touch (prices 1200/1500, the factor 0.12, day lengths, totals with
  at most four decimal places) is exactly representable, so no rounding of
  the model itself is involved.
- Dates are millisecond timestamps (rationals).  `new Date(v)` is modelled
  by `parseDate`; string parsing is modelled for calendar-date strings of
  the form YYYY-MM-DD (parsed by the runtime as UTC midnight); other string
  shapes are modelled as invalid dates, which no claim depends on.
- The Mongoose layer is modelled by `mongooseOk` (schema validators of
  src/models/booking.js) and a list-based store for the update and delete
  routes.
-/

/-- A JavaScript value as it can appear in a JSON request body. -/
inductive JSValue where
  | undefined : JSValue
  | null : JSValue
  | bool : Bool → JSValue
  | num : ℚ → JSValue
  | str : String → JSValue
deriving DecidableEq, Repr

/-- A JavaScript number: `none` is NaN, `some q` a finite value. -/
abbrev JSNum := Option ℚ

/-- JavaScript truthiness of a `JSValue`. -/
def truthy : JSValue → Bool
  | .undefined => false
  | .null => false
  | .bool b => b
  | .num q => q ≠ 0
  | .str s => s ≠ ""

/-- Whether `typeof v === "string"`. -/
def isStr : JSValue → Bool
  | .str _ => true
  | _ => false

/-- The underlying string of a string value (only consulted after an
`isStr` guard, mirroring the short-circuit in the source). -/
def strOf : JSValue → String
  | .str s => s
  | _ => ""

/-- Value of a nonempty digit list read in base 10. -/
def natOfDigits (cs : List Char) : ℕ :=
  cs.foldl (fun acc c => 10 * acc + (c.toNat - 48)) 0

/-- The JavaScript String.prototype.trim: leading and trailing whitespace
removed (modelled for the ASCII whitespace characters; the exotic Unicode
space characters do not occur in the embedded constants). -/
def jsTrim (s : String) : String :=
  (((s.toList.dropWhile Char.isWhitespace).reverse.dropWhile
      Char.isWhitespace).reverse).asString

/-- Splitting of a character list at every occurrence of a separator
character, keeping empty pieces, as String.prototype.split does. -/
def splitOnChar (c : Char) : List Char → List (List Char)
  | [] => [[]]
  | x :: xs =>
    match splitOnChar c xs with
    | [] => [[]]
    | cur :: rest => if x = c then [] :: cur :: rest else (x :: cur) :: rest

/-- The JavaScript `s.split(sep)` for a one-character separator. -/
def jsSplit (s : String) (c : Char) : List String :=
  (splitOnChar c s.toList).map List.asString

/-- Decimal literal parsing used by the JavaScript ToNumber conversion:
an optional sign, digits, an optional fraction.  Exponents, hex literals
and Infinity are not modelled; no claim exercises them. -/
def parseDecimal (cs : List Char) : Option ℚ := Id.run do
  let (sign, cs) := match cs with
    | '-' :: rest => ((-1 : ℚ), rest)
    | '+' :: rest => ((1 : ℚ), rest)
    | rest => ((1 : ℚ), rest)
  let (intPart, rest) := cs.span Char.isDigit
  match rest with
  | [] =>
    if intPart = [] then none
    else some (sign * natOfDigits intPart)
  | '.' :: frac =>
    if frac.all Char.isDigit && !(intPart = [] && frac = []) then
      some (sign * ((natOfDigits intPart : ℚ) +
        (natOfDigits frac : ℚ) / (10 : ℚ) ^ frac.length))
    else none
  | _ => none

/-- JavaScript ToNumber on a string: trimmed empty string is 0, otherwise
a decimal literal, otherwise NaN. -/
def strToNumber (s : String) : JSNum :=
  let t := jsTrim s
  if t = "" then some 0 else parseDecimal t.toList

/-- JavaScript ToNumber, as invoked by `Number(v)` and by `isNaN(v)`. -/
def toNumber : JSValue → JSNum
  | .undefined => none
  | .null => some 0
  | .bool b => some (if b then 1 else 0)
  | .num q => some q
  | .str s => strToNumber s

/-- Whether `isNaN(v)` holds. -/
def jsIsNaN (v : JSValue) : Bool := (toNumber v).isNone

/-- Whether `Number(v) < q` holds (false when the coercion yields NaN,
matching IEEE comparisons). -/
def numLtB (v : JSValue) (q : ℚ) : Bool :=
  match toNumber v with
  | some x => decide (x < q)
  | none => false

/-- Days from the civil epoch 1970-01-01 for a proleptic Gregorian date
(the classical era-based calendar algorithm, as used by ECMAScript date
arithmetic). -/
def daysFromCivil (y m d : ℤ) : ℤ :=
  let y := if m ≤ 2 then y - 1 else y
  let era := (if 0 ≤ y then y else y - 399) / 400
  let yoe := y - era * 400
  let doy := (153 * (m + (if 2 < m then -3 else 9)) + 2) / 5 + d - 1
  let doe := yoe * 365 + yoe / 4 - yoe / 100 + doy
  era * 146097 + doe - 719468

/-- Gregorian leap-year rule. -/
def isLeapYear (y : ℤ) : Bool :=
  (y % 4 = 0 && y % 100 ≠ 0) || y % 400 = 0

/-- Number of days in a month. -/
def daysInMonth (y m : ℤ) : ℤ :=
  if m = 1 ∨ m = 3 ∨ m = 5 ∨ m = 7 ∨ m = 8 ∨ m = 10 ∨ m = 12 then 31
  else if m = 4 ∨ m = 6 ∨ m = 9 ∨ m = 11 then 30
  else if isLeapYear y then 29
  else 28

/-- Parsing of a calendar-date string YYYY-MM-DD to a millisecond
timestamp at UTC midnight, as the ECMAScript Date parser does; malformed
or out-of-range strings give an invalid date. -/
def parseIsoDate (s : String) : Option ℚ :=
  match s.toList with
  | [y1, y2, y3, y4, h1, m1, m2, h2, d1, d2] =>
    if y1.isDigit && y2.isDigit && y3.isDigit && y4.isDigit &&
        h1 = '-' && m1.isDigit && m2.isDigit && h2 = '-' &&
        d1.isDigit && d2.isDigit then
      let y : ℤ := (natOfDigits [y1, y2, y3, y4] : ℤ)
      let m : ℤ := (natOfDigits [m1, m2] : ℤ)
      let d : ℤ := (natOfDigits [d1, d2] : ℤ)
      if 1 ≤ m ∧ m ≤ 12 ∧ 1 ≤ d ∧ d ≤ daysInMonth y m then
        some ((daysFromCivil y m d * 86400000 : ℤ) : ℚ)
      else none
    else none
  | _ => none

/-- Timestamp of `new Date(v)`: `none` is an invalid date (its time value
is NaN), `some t` a valid date at millisecond timestamp `t`. -/
def parseDate : JSValue → Option ℚ
  | .undefined => none
  | .null => some 0
  | .bool b => some (if b then 1 else 0)
  | .num q => some q
  | .str s => parseIsoDate s

/-- Raw booking-creation request body.  `bodyTotalAmount` stands for any
totalAmount property a client includes in the body: the destructuring in
the handlers never reads it. -/
structure RawRequest where
  name : JSValue
  phone : JSValue
  checkin : JSValue
  checkout : JSValue
  adults : JSValue
  children : JSValue
  rooms : JSValue
  location : JSValue
  bodyTotalAmount : JSValue
deriving DecidableEq, Repr

/-- The `children = 0` destructuring default: applies exactly when the
property is undefined. -/
def childrenVal (r : RawRequest) : JSValue :=
  if r.children = JSValue.undefined then JSValue.num 0 else r.children

/-- Rule 1 condition: `!name || typeof name !== "string" ||
name.trim().length < 2 || name.trim().length > 64`. -/
def nameErrB (r : RawRequest) : Bool :=
  !truthy r.name || !isStr r.name ||
    (jsTrim (strOf r.name)).length < 2 || (jsTrim (strOf r.name)).length > 64

/-- The phone normalisation `phone ? phone.replace(/\D/g, "") : ""`
throws a TypeError when phone is truthy but not a string (a number has no
replace method). -/
def phoneThrowB (r : RawRequest) : Bool :=
  truthy r.phone && !isStr r.phone

/-- The normalised phone digits, defined when no TypeError is thrown. -/
def phoneStr (r : RawRequest) : String :=
  if truthy r.phone then ((strOf r.phone).toList.filter Char.isDigit).asString else ""

/-- Rule 2 condition: `!phoneNumber || phoneNumber.length !== 10`. -/
def phoneErrB (r : RawRequest) : Bool :=
  phoneStr r = "" || (phoneStr r).length ≠ 10

/-- Rule 3 condition: `!checkin || !checkout`. -/
def datesMissingB (r : RawRequest) : Bool :=
  !truthy r.checkin || !truthy r.checkout

/-- Rule 4 condition: `isNaN(checkinDate) || isNaN(checkoutDate)`. -/
def datesInvalidB (r : RawRequest) : Bool :=
  (parseDate r.checkin).isNone || (parseDate r.checkout).isNone

/-- Rule 5 condition: `checkinDate < today` (today has its time of day
zeroed before the comparison). -/
def pastB (today : ℚ) (r : RawRequest) : Bool :=
  match parseDate r.checkin with
  | some t => decide (t < today)
  | none => false

/-- Rule 6 condition: `checkoutDate <= checkinDate`. -/
def orderErrB (r : RawRequest) : Bool :=
  match parseDate r.checkin, parseDate r.checkout with
  | some tin, some tout => decide (tout ≤ tin)
  | _, _ => false

/-- Rule 7 condition: `!adults || isNaN(adults) || Number(adults) < 1`. -/
def adultsErrB (r : RawRequest) : Bool :=
  !truthy r.adults || jsIsNaN r.adults || numLtB r.adults 1

/-- Rule 8 condition: `typeof children !== "undefined" &&
(isNaN(children) || Number(children) < 0)`, on the destructured value. -/
def childrenErrB (r : RawRequest) : Bool :=
  (childrenVal r ≠ JSValue.undefined) &&
    (jsIsNaN (childrenVal r) || numLtB (childrenVal r) 0)

/-- Rule 9 condition: `!rooms || isNaN(rooms) || Number(rooms) < 1`. -/
def roomsErrB (r : RawRequest) : Bool :=
  !truthy r.rooms || jsIsNaN r.rooms || numLtB r.rooms 1

/-- Rule 10 condition: `!location || typeof location !== "string" ||
location.trim().length < 2`. -/
def locationErrB (r : RawRequest) : Bool :=
  !truthy r.location || !isStr r.location ||
    (jsTrim (strOf r.location)).length < 2

/-- Values the validation block binds for the rest of the handler. -/
structure Validated where
  phoneNumber : String
  tin : ℚ
  tout : ℚ
deriving DecidableEq, Repr

/-- Outcome of the inline validation block: a 400 rejection with its
message, a thrown TypeError (surfaced by the catch block as a 500), or
success with the bound values. -/
inductive VOut where
  | reject : String → VOut
  | tError : VOut
  | pass : Validated → VOut
deriving DecidableEq, Repr

/-- Validation block of the booking-creation handler in src/server.js
(lines 137-160): the six rules name, phone, dates-present, dates-valid,
checkin-not-past, checkout-after-checkin, in source order with
short-circuit; the source then moves on to pricing with the comment
"Continue with other validations...". -/
def validateServer (today : ℚ) (r : RawRequest) : VOut :=
  if nameErrB r then .reject "Name must be between 2 to 64 characters"
  else if phoneThrowB r then .tError
  else if phoneErrB r then .reject "Phone number must be exactly 10 digits"
  else if datesMissingB r then .reject "Check-in and check-out dates are required"
  else if datesInvalidB r then .reject "Dates must be valid"
  else if pastB today r then .reject "Check-in date cannot be in the past"
  else if orderErrB r then .reject "Check-out date must be after check-in"
  else .pass ⟨phoneStr r, (parseDate r.checkin).getD 0, (parseDate r.checkout).getD 0⟩

/-- Validation block of the booking-creation handler in
src/unnamed/part_000 (lines 355-447): all ten rules in source order with
short-circuit. -/
def validateFull (today : ℚ) (r : RawRequest) : VOut :=
  if nameErrB r then .reject "Name must be between 2 to 64 characters"
  else if phoneThrowB r then .tError
  else if phoneErrB r then .reject "Phone number must be exactly 10 digits"
  else if datesMissingB r then .reject "Check-in and check-out dates are required"
  else if datesInvalidB r then .reject "Dates must be valid"
  else if pastB today r then .reject "Check-in date cannot be in the past"
  else if orderErrB r then .reject "Check-out date must be after check-in"
  else if adultsErrB r then .reject "At least one adult must be specified"
  else if childrenErrB r then .reject "Number of children must be zero or more"
  else if roomsErrB r then .reject "At least one room must be specified"
  else if locationErrB r then .reject "Location is required and must be valid"
  else .pass ⟨phoneStr r, (parseDate r.checkin).getD 0, (parseDate r.checkout).getD 0⟩

/-- Property names reachable on an object literal through its prototype,
Object.prototype.  A property access `PROPERTY_PRICES[location]` falls
back to these when the key is not an own property; every one of them holds
a function (or, for __proto__, an object), hence a truthy value. -/
def objectPrototypeProps : List String :=
  ["constructor", "hasOwnProperty", "isPrototypeOf", "propertyIsEnumerable",
   "toLocaleString", "toString", "valueOf",
   "__defineGetter__", "__defineSetter__", "__lookupGetter__",
   "__lookupSetter__", "__proto__"]

/-- Result of the price lookup `PROPERTY_PRICES[location] || 1200`:
either a number, or a truthy member inherited from Object.prototype
(a function or object, which the `||` keeps). -/
inductive PriceVal where
  | num : ℚ → PriceVal
  | protoMember : String → PriceVal
deriving DecidableEq, Repr

/-- The lookup `PROPERTY_PRICES[location] || 1200` of src/server.js line
165 (and src/unnamed/part_000 line 453), on the table
`{ Patia: 1200, Niladri: 1500 }`: own properties first, then
Object.prototype members (all truthy, so `||` keeps them), then the
default 1200 for the undefined result. -/
def bookingPriceOf (location : String) : PriceVal :=
  if location = "Patia" then .num 1200
  else if location = "Niladri" then .num 1500
  else if location ∈ objectPrototypeProps then .protoMember location
  else .num 1200

/-- ToNumber of the looked-up price, as used by the multiplication
`bookingPrice * nights`: functions and objects coerce to NaN. -/
def priceNum : PriceVal → JSNum
  | .num q => some q
  | .protoMember _ => none

/-- NaN-propagating multiplication of JavaScript numbers. -/
def jsMul : JSNum → JSNum → JSNum
  | some a, some b => some (a * b)
  | _, _ => none

/-- NaN-propagating addition of JavaScript numbers. -/
def jsAdd : JSNum → JSNum → JSNum
  | some a, some b => some (a + b)
  | _, _ => none

/-- Rounding to two decimal places (the convention of `toFixed(2)`,
halves rounding up on the exact rationals of this model). -/
def round2 (q : ℚ) : ℚ := (round (q * 100) : ℤ) / 100

/-- toFixed(2) on a JavaScript number; NaN renders as the string "NaN",
kept as NaN here. -/
def jsRound2 (v : JSNum) : JSNum := v.map round2

/-- Number of nights: `Math.ceil((checkout - checkin) / 86400000)`. -/
def nightsOf (v : Validated) : ℤ := ⌈(v.tout - v.tin) / 86400000⌉

/-- A persisted booking document with the fields of the Mongoose schema
in src/models/booking.js. -/
structure BookingDoc where
  name : String
  phone : String
  location : String
  checkin : ℚ
  checkout : ℚ
  adults : JSNum
  children : JSNum
  rooms : JSNum
  totalAmount : JSNum
  createdAt : ℤ
  remark : String
deriving DecidableEq, Repr

/-- Whether `q` is at least `m`, as the Mongoose min validator checks it;
a NaN value fails the comparison. -/
def jsNumGe (v : JSNum) (m : ℚ) : Bool :=
  match v with
  | some q => decide (m ≤ q)
  | none => false

/-- Schema validation run by booking.save() (src/models/booking.js):
name required with length in [2, 64], phone exactly ten digits, location
required (a nonempty string), adults at least 1, children at least 0,
rooms at least 1.  totalAmount is a required Number, which NaN satisfies
(NaN is a number and the required check only rejects null or undefined);
checkin and checkout are always set by the handler. -/
def mongooseOk (b : BookingDoc) : Bool :=
  2 ≤ b.name.length && b.name.length ≤ 64 &&
  b.phone.length = 10 && b.phone.toList.all Char.isDigit &&
  b.location ≠ "" &&
  jsNumGe b.adults 1 && jsNumGe b.children 0 && jsNumGe b.rooms 1

/-- The booking document built by the creation handlers (src/server.js
lines 164-183, src/unnamed/part_000 lines 451-495): price lookup on the
raw location, `nights = ceil((checkout - checkin)/86400000)`,
`base = price * nights * rooms`, `gst = base * 0.12`,
`total = base + gst`; the stored location is trimmed, the stored phone is
the normalised digit string, createdAt defaults to the save time, remark
defaults to the empty string. -/
def mkDoc (now : ℤ) (r : RawRequest) (v : Validated) (loc : String) : BookingDoc :=
  let price := bookingPriceOf loc
  let nights := nightsOf v
  let roomsCount := toNumber r.rooms
  let baseAmount := jsMul (jsMul (priceNum price) (some (nights : ℚ))) roomsCount
  let gst := jsMul baseAmount (some (12 / 100))
  let totalAmount := jsAdd baseAmount gst
  { name := jsTrim (strOf r.name)
    phone := v.phoneNumber
    location := jsTrim loc
    checkin := v.tin
    checkout := v.tout
    adults := toNumber r.adults
    children := toNumber (childrenVal r)
    rooms := roomsCount
    totalAmount := totalAmount
    createdAt := now
    remark := "" }

/-- Success response body of the booking-creation route.  src/server.js
sends `{ success, message, bookingId }`; src/unnamed/part_000 additionally
sends bookingPrice, nights and totalAmount (the latter rendered with
toFixed(2)). -/
structure SuccessResponse where
  success : Bool
  message : String
  bookingId : ℕ
  bookingPrice : Option PriceVal
  nights : Option ℤ
  totalAmount : Option JSNum
deriving DecidableEq, Repr

/-- The success response of src/server.js lines 209-213. -/
def serverResp (id : ℕ) : SuccessResponse :=
  { success := true
    message := "Booking saved successfully"
    bookingId := id
    bookingPrice := none
    nights := none
    totalAmount := none }

/-- The success response of src/unnamed/part_000 lines 545-559. -/
def fullResp (id : ℕ) (price : PriceVal) (nights : ℤ) (total : JSNum) : SuccessResponse :=
  { success := true
    message := "Booking saved successfully"
    bookingId := id
    bookingPrice := some price
    nights := some nights
    totalAmount := some (jsRound2 total) }

/-- Outcome of the booking-creation route: a 400 with a validation
message, a 500 from the catch block (thrown TypeError, failed save, or
store outage), or a 200 with the response body and the saved document. -/
inductive BookOutcome where
  | clientError : String → BookOutcome
  | serverError : BookOutcome
  | success : SuccessResponse → BookingDoc → BookOutcome
deriving DecidableEq, Repr

/-- The POST /api/book handler of src/server.js.  `today` is the current
date with the time of day zeroed, `now` the persistence time stamped by
the schema default, `storeUp` whether the store write succeeds, `id` the
identifier the store assigns.  After validation, a non-string location
makes `location.trim()` throw (caught as a 500); a save rejected by the
schema or a store outage is also a 500. -/
def bookServer (today : ℚ) (now : ℤ) (storeUp : Bool) (id : ℕ) (r : RawRequest) : BookOutcome :=
  match validateServer today r with
  | .reject msg => .clientError msg
  | .tError => .serverError
  | .pass v =>
    match r.location with
    | .str loc =>
      if storeUp && mongooseOk (mkDoc now r v loc) then
        .success (serverResp id) (mkDoc now r v loc)
      else .serverError
    | _ => .serverError

/-- The POST /api/book handler of src/unnamed/part_000, with the ten-rule
validation block and the richer success response. -/
def bookFull (today : ℚ) (now : ℤ) (storeUp : Bool) (id : ℕ) (r : RawRequest) : BookOutcome :=
  match validateFull today r with
  | .reject msg => .clientError msg
  | .tError => .serverError
  | .pass v =>
    match r.location with
    | .str loc =>
      if storeUp && mongooseOk (mkDoc now r v loc) then
        .success
          (fullResp id (bookingPriceOf loc) (nightsOf v) (mkDoc now r v loc).totalAmount)
          (mkDoc now r v loc)
      else .serverError
    | _ => .serverError

/-- The persisted total of a creation outcome, when one was persisted. -/
def persistedTotal : BookOutcome → Option JSNum
  | .success _ doc => some doc.totalAmount
  | _ => none

/-- The totalAmount field of the success response, when the outcome is a
success; the inner Option records whether the response carries the field
at all. -/
def respTotalField : BookOutcome → Option (Option JSNum)
  | .success resp _ => some resp.totalAmount
  | _ => none

/-- A partial update payload for PUT /api/bookings/:id: any subset of the
schema fields may be supplied. -/
structure BookingUpdate where
  name : Option String
  phone : Option String
  location : Option String
  checkin : Option ℚ
  checkout : Option ℚ
  adults : Option JSNum
  children : Option JSNum
  rooms : Option JSNum
  totalAmount : Option JSNum
  createdAt : Option ℤ
  remark : Option String
deriving DecidableEq, Repr

/-- Effect of `Booking.findByIdAndUpdate(id, updateData)` on a found
document: Mongoose treats the plain payload as a field-wise set, leaving
unspecified fields unchanged; no schema validation is re-run. -/
def applyUpdate (b : BookingDoc) (u : BookingUpdate) : BookingDoc :=
  { name := u.name.getD b.name
    phone := u.phone.getD b.phone
    location := u.location.getD b.location
    checkin := u.checkin.getD b.checkin
    checkout := u.checkout.getD b.checkout
    adults := u.adults.getD b.adults
    children := u.children.getD b.children
    rooms := u.rooms.getD b.rooms
    totalAmount := u.totalAmount.getD b.totalAmount
    createdAt := u.createdAt.getD b.createdAt
    remark := u.remark.getD b.remark }

/-- The booking store: documents keyed by their assigned identifier. -/
abbrev Store := List (ℕ × BookingDoc)

/-- Lookup by identifier. -/
def findById (st : Store) (i : ℕ) : Option BookingDoc :=
  (st.find? (fun p => p.1 = i)).map (·.2)

/-- PUT /api/bookings/:id on the store: a found document is updated in
place and the updated document returned ({ new: true }); an absent
identifier returns a 404. -/
def updateById (st : Store) (i : ℕ) (u : BookingUpdate) : Store × Option BookingDoc :=
  match findById st i with
  | none => (st, none)
  | some b =>
    (st.map (fun p => if p.1 = i then (i, applyUpdate b u) else p),
     some (applyUpdate b u))

/-- DELETE /api/bookings/:id on the store: a found document is removed
and returned; an absent identifier returns a 404. -/
def deleteById (st : Store) (i : ℕ) : Store × Option BookingDoc :=
  match findById st i with
  | none => (st, none)
  | some b => (st.filter (fun p => p.1 != i), some b)

/-- The authenticated principal attached to the request by a verified
token. -/
structure Identity where
  userId : ℕ
  username : String
  role : String
deriving DecidableEq, Repr

/-- Result of running a protected route: an error response with its
status and error string, or the value produced by the protected handler. -/
inductive RouteResult (α : Type) where
  | errorRes : ℕ → String → RouteResult α
  | handled : α → RouteResult α
deriving DecidableEq, Repr

/-- The token extracted by authenticateToken (src/server.js lines 61-65):
`authHeader && authHeader.split(" ")[1]`.  The result is `none` whenever
the `!token` guard fires, that is when the header is missing or falsy or
when the piece after the first space is missing or empty. -/
def tokenOf (authHeader : Option String) : Option String :=
  match authHeader.bind (fun h => if h = "" then none else (jsSplit h ' ').get? 1) with
  | some t => if t = "" then none else some t
  | none => none

/-- The authenticateToken middleware wrapping a protected handler
(src/server.js lines 61-72): a missing token yields 401 Unauthorized, a
token rejected by jwt.verify yields 403 Forbidden, and only a verified
token lets the handler run.  `verify` abstracts jwt.verify with the
configured secret. -/
def runProtected {α : Type} (verify : String → Option Identity)
    (authHeader : Option String) (handler : Identity → α) : RouteResult α :=
  match tokenOf authHeader with
  | none => .errorRes 401 "Unauthorized"
  | some t =>
    match verify t with
    | none => .errorRes 403 "Forbidden"
    | some u => .handled (handler u)

/-- A stored staff user (src/models/user.js). -/
structure StoredUser where
  username : String
  passwordHash : String
  role : String
deriving DecidableEq, Repr

/-- Outcome of POST /api/login. -/
inductive LoginResult where
  | badRequest : LoginResult
  | invalidCreds : LoginResult
  | serverError : LoginResult
  | token : String → String → LoginResult
deriving DecidableEq, Repr

/-- Property names available on a JavaScript string value: the
String.prototype methods plus length (Object.prototype members are listed
separately).  There is no compare method among them. -/
def stringPrototypeProps : List String :=
  ["length", "at", "charAt", "charCodeAt", "codePointAt", "concat",
   "endsWith", "includes", "indexOf", "lastIndexOf", "localeCompare",
   "match", "matchAll", "normalize", "padEnd", "padStart", "repeat",
   "replace", "replaceAll", "search", "slice", "split", "startsWith",
   "substring", "toLocaleLowerCase", "toLocaleUpperCase", "toLowerCase",
   "toUpperCase", "trim", "trimEnd", "trimStart", "valueOf", "toString"]

/-- src/server.js line 6 binds bcrypt to the string literal "bcrypt"
instead of requiring the bcrypt module.  The call
`bcrypt.compare(password, hash)` therefore looks up a compare property on
a string value; no such property exists on String.prototype or
Object.prototype, so the access yields undefined and the call throws a
TypeError (modelled as `Except.error`).  The `.ok` branch is unreachable
for the name compare; it records that a found property would have been
invoked. -/
def bcryptCompare (password passwordHash : JSValue) : Except String Bool :=
  if "compare" ∈ stringPrototypeProps ∨ "compare" ∈ objectPrototypeProps then
    .ok (password = passwordHash)
  else
    .error "TypeError: bcrypt.compare is not a function"

/-- The POST /api/login handler of src/server.js lines 92-121: a missing
username or password is a 400; an unknown username is a 401; for a found
user the bcrypt comparison runs inside the try block, and the catch block
turns its thrown TypeError into the generic 500 Server error during
login.  `findUser` abstracts User.findOne. -/
def loginHandler (findUser : JSValue → Option StoredUser)
    (username password : JSValue) : LoginResult :=
  if !truthy username || !truthy password then .badRequest
  else
    match findUser username with
    | none => .invalidCreds
    | some user =>
      match bcryptCompare password (.str user.passwordHash) with
      | .error _ => .serverError
      | .ok true => .token user.username user.role
      | .ok false => .invalidCreds

/-- Milliseconds per day. -/
def dayMs : ℚ := 86400000

/-- The timestamp of 2026-10-11 at UTC midnight (day 20737 of the Unix
epoch), used as the zeroed "today" of the concrete examples. -/
def T0 : ℚ := 20737 * dayMs

/-- Example scenario 1 of the specification: Jane Doe books two nights in
Niladri for one room starting today. -/
def scen1 : RawRequest :=
  { name := .str "Jane Doe"
    phone := .str "98-7654-3210"
    checkin := .str "2026-10-11"
    checkout := .str "2026-10-13"
    adults := .num 2
    children := .undefined
    rooms := .num 1
    location := .str "Niladri"
    bodyTotalAmount := .undefined }

/-- A request that passes the six rules of src/server.js but fails the
adults rule of the full validation: zero adults. -/
def adultsZeroReq : RawRequest :=
  { name := .str "Jane Doe"
    phone := .str "9876543210"
    checkin := .str "2026-10-11"
    checkout := .str "2026-10-12"
    adults := .num 0
    children := .undefined
    rooms := .num 1
    location := .str "Patia"
    bodyTotalAmount := .undefined }

/-- A request with a fractional room count 1.0001, which no rule of
either validation block rejects; its total 1344.1344 has four decimal
places. -/
def fracRoomsReq : RawRequest :=
  { name := .str "Jane Doe"
    phone := .str "9876543210"
    checkin := .str "2026-10-11"
    checkout := .str "2026-10-12"
    adults := .num 2
    children := .undefined
    rooms := .num (10001 / 10000)
    location := .str "Patia"
    bodyTotalAmount := .undefined }

/-- A request whose location matches the price-table key Niladri only
after trimming. -/
def paddedLocReq : RawRequest :=
  { name := .str "Jane Doe"
    phone := .str "9876543210"
    checkin := .str "2026-10-11"
    checkout := .str "2026-10-13"
    adults := .num 2
    children := .undefined
    rooms := .num 1
    location := .str " Niladri "
    bodyTotalAmount := .undefined }

/-- A request failing both the name rule and the phone rule. -/
def badNamePhoneReq : RawRequest :=
  { name := .str "A"
    phone := .str "12345"
    checkin := .str "2026-10-11"
    checkout := .str "2026-10-13"
    adults := .num 2
    children := .undefined
    rooms := .num 1
    location := .str "Niladri"
    bodyTotalAmount := .undefined }

/-- A stored booking used by the update and delete examples. -/
def doc0 : BookingDoc :=
  { name := "Jane Doe"
    phone := "9876543210"
    location := "Niladri"
    checkin := T0
    checkout := T0 + 2 * dayMs
    adults := some 2
    children := some 0
    rooms := some 1
    totalAmount := some 3360
    createdAt := 111
    remark := "" }

/-- An update payload supplying a client-chosen totalAmount and
createdAt and nothing else. -/
def clientTotalUpdate : BookingUpdate :=
  { name := none
    phone := none
    location := none
    checkin := none
    checkout := none
    adults := none
    children := none
    rooms := none
    totalAmount := some (some 1)
    createdAt := some 999
    remark := none }

/-- An update payload supplying only a remark. -/
def remarkUpdate : BookingUpdate :=
  { name := none
    phone := none
    location := none
    checkin := none
    checkout := none
    adults := none
    children := none
    rooms := none
    totalAmount := none
    createdAt := none
    remark := some "late arrival" }

/-- Inversion of a successful run of the src/server.js creation handler:
the validation block passed, the location was a string, the persisted
document is the one built by the pricing block, and the response is the
fixed success body. -/
theorem bookServer_success_inv {today : ℚ} {now : ℤ} {storeUp : Bool} {id : ℕ}
    {r : RawRequest} {resp : SuccessResponse} {doc : BookingDoc}
    (h : bookServer today now storeUp id r = BookOutcome.success resp doc) :
    ∃ v loc, validateServer today r = VOut.pass v ∧ r.location = JSValue.str loc ∧
      doc = mkDoc now r v loc ∧ resp = serverResp id := by
  unfold bookServer at h
  split at h
  · exact absurd h (by simp)
  · exact absurd h (by simp)
  · rename_i v hv
    split at h
    · rename_i loc hloc
      split at h
      · rename_i hsave
        injection h with h1 h2
        exact ⟨v, loc, hv, hloc, h2.symm, h1.symm⟩
      · exact absurd h (by simp)
    · exact absurd h (by simp)

/-- Inversion of a successful run of the src/unnamed/part_000 creation
handler. -/
theorem bookFull_success_inv {today : ℚ} {now : ℤ} {storeUp : Bool} {id : ℕ}
    {r : RawRequest} {resp : SuccessResponse} {doc : BookingDoc}
    (h : bookFull today now storeUp id r = BookOutcome.success resp doc) :
    ∃ v loc, validateFull today r = VOut.pass v ∧ r.location = JSValue.str loc ∧
      doc = mkDoc now r v loc ∧
      resp = fullResp id (bookingPriceOf loc) (nightsOf v) (mkDoc now r v loc).totalAmount := by
  unfold bookFull at h
  split at h
  · exact absurd h (by simp)
  · exact absurd h (by simp)
  · rename_i v hv
    split at h
    · rename_i loc hloc
      split at h
      · rename_i hsave
        injection h with h1 h2
        exact ⟨v, loc, hv, hloc, h2.symm, h1.symm⟩
      · exact absurd h (by simp)
    · exact absurd h (by simp)

/-- Rounding to two decimals is the identity on a value that is an
integer number of hundredths. -/
theorem round2_int_over_100 (m : ℤ) : round2 ((m : ℚ) / 100) = (m : ℚ) / 100 := by
  unfold round2
  have h : ((m : ℚ) / 100) * 100 = (m : ℚ) := by
    field_simp
  rw [h, round_intCast]

/-- The price table only ever yields the numeric rates 1200 and 1500. -/
theorem bookingPriceOf_num {loc : String} {p : ℚ}
    (h : bookingPriceOf loc = PriceVal.num p) : p = 1200 ∨ p = 1500 := by
  unfold bookingPriceOf at h
  split at h
  · injection h with h; exact Or.inl h.symm
  · split at h
    · injection h with h; exact Or.inr h.symm
    · split at h
      · exact absurd h (by simp)
      · injection h with h; exact Or.inl h.symm

/-- Every property name inherited from Object.prototype is free of
leading and trailing whitespace. -/
theorem protoProps_trim : ∀ s ∈ objectPrototypeProps, jsTrim s = s := by decide

/-- C1: in the src/unnamed/part_000 creation handler the ten validation
rules are evaluated in the fixed order name, phone, dates-present,
dates-valid, checkin-not-past, checkout-after-checkin, adults, children,
rooms, location; the first failing rule determines the rejection and its
message (so a request failing both the name rule and the phone rule
reports the name error), the ten messages are pairwise distinct, and when
every rule passes the block falls through to pricing.  The src/server.js
handler stops after the first six rules (see the counterexample). -/
theorem C1_prop :
    (∀ today r, nameErrB r = true →
      validateFull today r = VOut.reject "Name must be between 2 to 64 characters") ∧
    (∀ today r, nameErrB r = false → phoneThrowB r = false → phoneErrB r = true →
      validateFull today r = VOut.reject "Phone number must be exactly 10 digits") ∧
    (∀ today r, nameErrB r = false → phoneThrowB r = false → phoneErrB r = false →
      datesMissingB r = true →
      validateFull today r = VOut.reject "Check-in and check-out dates are required") ∧
    (∀ today r, nameErrB r = false → phoneThrowB r = false → phoneErrB r = false →
      datesMissingB r = false → datesInvalidB r = true →
      validateFull today r = VOut.reject "Dates must be valid") ∧
    (∀ today r, nameErrB r = false → phoneThrowB r = false → phoneErrB r = false →
      datesMissingB r = false → datesInvalidB r = false → pastB today r = true →
      validateFull today r = VOut.reject "Check-in date cannot be in the past") ∧
    (∀ today r, nameErrB r = false → phoneThrowB r = false → phoneErrB r = false →
      datesMissingB r = false → datesInvalidB r = false → pastB today r = false →
      orderErrB r = true →
      validateFull today r = VOut.reject "Check-out date must be after check-in") ∧
    (∀ today r, nameErrB r = false → phoneThrowB r = false → phoneErrB r = false →
      datesMissingB r = false → datesInvalidB r = false → pastB today r = false →
      orderErrB r = false → adultsErrB r = true →
      validateFull today r = VOut.reject "At least one adult must be specified") ∧
    (∀ today r, nameErrB r = false → phoneThrowB r = false → phoneErrB r = false →
      datesMissingB r = false → datesInvalidB r = false → pastB today r = false →
      orderErrB r = false → adultsErrB r = false → childrenErrB r = true →
      validateFull today r = VOut.reject "Number of children must be zero or more") ∧
    (∀ today r, nameErrB r = false → phoneThrowB r = false → phoneErrB r = false →
      datesMissingB r = false → datesInvalidB r = false → pastB today r = false →
      orderErrB r = false → adultsErrB r = false → childrenErrB r = false →
      roomsErrB r = true →
      validateFull today r = VOut.reject "At least one room must be specified") ∧
    (∀ today r, nameErrB r = false → phoneThrowB r = false → phoneErrB r = false →
      datesMissingB r = false → datesInvalidB r = false → pastB today r = false →
      orderErrB r = false → adultsErrB r = false → childrenErrB r = false →
      roomsErrB r = false → locationErrB r = true →
      validateFull today r = VOut.reject "Location is required and must be valid") ∧
    (∀ today r, nameErrB r = false → phoneThrowB r = false → phoneErrB r = false →
      datesMissingB r = false → datesInvalidB r = false → pastB today r = false →
      orderErrB r = false → adultsErrB r = false → childrenErrB r = false →
      roomsErrB r = false → locationErrB r = false →
      validateFull today r =
        VOut.pass ⟨phoneStr r, (parseDate r.checkin).getD 0, (parseDate r.checkout).getD 0⟩) ∧
    List.Pairwise (· ≠ ·)
      ["Name must be between 2 to 64 characters",
       "Phone number must be exactly 10 digits",
       "Check-in and check-out dates are required",
       "Dates must be valid",
       "Check-in date cannot be in the past",
       "Check-out date must be after check-in",
       "At least one adult must be specified",
       "Number of children must be zero or more",
       "At least one room must be specified",
       "Location is required and must be valid"] := by
  refine ⟨?_, ?_, ?_, ?_, ?_, ?_, ?_, ?_, ?_, ?_, ?_, ?_⟩
  · intro today r h1; simp [validateFull, h1]
  · intro today r h1 h2 h3; simp [validateFull, h1, h2, h3]
  · intro today r h1 h2 h3 h4; simp [validateFull, h1, h2, h3, h4]
  · intro today r h1 h2 h3 h4 h5; simp [validateFull, h1, h2, h3, h4, h5]
  · intro today r h1 h2 h3 h4 h5 h6; simp [validateFull, h1, h2, h3, h4, h5, h6]
  · intro today r h1 h2 h3 h4 h5 h6 h7
    simp [validateFull, h1, h2, h3, h4, h5, h6, h7]
  · intro today r h1 h2 h3 h4 h5 h6 h7 h8
    simp [validateFull, h1, h2, h3, h4, h5, h6, h7, h8]
  · intro today r h1 h2 h3 h4 h5 h6 h7 h8 h9
    simp [validateFull, h1, h2, h3, h4, h5, h6, h7, h8, h9]
  · intro today r h1 h2 h3 h4 h5 h6 h7 h8 h9 h10
    simp [validateFull, h1, h2, h3, h4, h5, h6, h7, h8, h9, h10]
  · intro today r h1 h2 h3 h4 h5 h6 h7 h8 h9 h10 h11
    simp [validateFull, h1, h2, h3, h4, h5, h6, h7, h8, h9, h10, h11]
  · intro today r h1 h2 h3 h4 h5 h6 h7 h8 h9 h10 h11
    simp [validateFull, h1, h2, h3, h4, h5, h6, h7, h8, h9, h10, h11]
  · decide

/-- C1, counterexample to the claim as stated: the request with zero
adults (and every other field valid) passes the entire validation block
of src/server.js, which therefore does not evaluate the adults rule and
does not reject with its reason; the handler then fails at the schema
save and answers 500, while the ten-rule block of src/unnamed/part_000
rejects it with the adults message. -/
theorem C1_counterexample :
    validateServer T0 adultsZeroReq = VOut.pass ⟨"9876543210", T0, T0 + dayMs⟩ ∧
    validateFull T0 adultsZeroReq = VOut.reject "At least one adult must be specified" ∧
    bookServer T0 77 true 5 adultsZeroReq = BookOutcome.serverError := by
  refine ⟨by decide, by decide, by decide⟩

/-- C1, witness: a request failing both the name rule and the phone rule
is rejected with the name message. -/
theorem C1_witness :
    validateFull T0 badNamePhoneReq = VOut.reject "Name must be between 2 to 64 characters" ∧
    nameErrB badNamePhoneReq = true ∧ phoneErrB badNamePhoneReq = true :=
  ⟨C1_prop.1 T0 badNamePhoneReq (by decide), by decide, by decide⟩

/-- C3: the price lookup resolves to 1200 for every location string that
is neither a listed key of the table nor the name of a member inherited
from Object.prototype; Patia resolves to 1200 and Niladri to 1500.  (For
a prototype member name such as "toString" the lookup yields the
inherited truthy member instead of falling back to 1200 — see the
counterexample.) -/
theorem C3_prop (loc : String) (h1 : loc ≠ "Patia") (h2 : loc ≠ "Niladri")
    (h3 : loc ∉ objectPrototypeProps) :
    bookingPriceOf loc = PriceVal.num 1200 ∧
    bookingPriceOf "Patia" = PriceVal.num 1200 ∧
    bookingPriceOf "Niladri" = PriceVal.num 1500 := by
  refine ⟨?_, by decide, by decide⟩
  unfold bookingPriceOf
  rw [if_neg h1, if_neg h2, if_neg h3]

/-- C3, counterexample to the claim as stated: "toString" is not a listed
key of the price table, yet the lookup `PROPERTY_PRICES["toString"]`
yields the member inherited from Object.prototype, which is truthy, so
the `|| 1200` default does not apply and the rate is not 1200. -/
theorem C3_counterexample :
    bookingPriceOf "toString" = PriceVal.protoMember "toString" ∧
    "toString" ≠ "Patia" ∧ "toString" ≠ "Niladri" ∧
    PriceVal.protoMember "toString" ≠ PriceVal.num 1200 := by
  refine ⟨by decide, by decide, by decide, by decide⟩

/-- C3, witness: the unlisted ordinary location "Puri" resolves to the
default rate 1200. -/
theorem C3_witness : bookingPriceOf "Puri" = PriceVal.num 1200 :=
  (C3_prop "Puri" (by decide) (by decide) (by decide)).1

/-- A request identical to scenario 1 except that check-in is one
calendar day before today (today being 2026-10-11). -/
def yesterdayReq : RawRequest :=
  { name := .str "Jane Doe"
    phone := .str "9876543210"
    checkin := .str "2026-10-10"
    checkout := .str "2026-10-13"
    adults := .num 2
    children := .undefined
    rooms := .num 1
    location := .str "Niladri"
    bodyTotalAmount := .undefined }

/-- A request whose check-out equals its check-in. -/
def sameDayReq : RawRequest :=
  { name := .str "Jane Doe"
    phone := .str "9876543210"
    checkin := .str "2026-10-11"
    checkout := .str "2026-10-11"
    adults := .num 2
    children := .undefined
    rooms := .num 1
    location := .str "Niladri"
    bodyTotalAmount := .undefined }

/-- C4: at the booking-creation validation (both handlers share these
date rules), once the name and phone rules pass and both dates are
present and parse: a check-in equal to the zeroed today passes the date
rules (in src/server.js the request is then accepted outright, its
validation having no further rules); a check-in one day before today is
rejected with the past-date reason; a check-out equal to the check-in is
rejected with the checkout-after-checkin reason. -/
theorem C4_prop (today : ℚ) (r : RawRequest) (tin tout : ℚ)
    (h1 : nameErrB r = false) (h2 : phoneThrowB r = false) (h3 : phoneErrB r = false)
    (h4 : truthy r.checkin = true) (h5 : truthy r.checkout = true)
    (hin : parseDate r.checkin = some tin) (hout : parseDate r.checkout = some tout) :
    (tin = today → today < tout →
      validateServer today r = VOut.pass ⟨phoneStr r, tin, tout⟩) ∧
    (tin = today - dayMs →
      validateServer today r = VOut.reject "Check-in date cannot be in the past" ∧
      validateFull today r = VOut.reject "Check-in date cannot be in the past") ∧
    (tout = tin → ¬tin < today →
      validateServer today r = VOut.reject "Check-out date must be after check-in" ∧
      validateFull today r = VOut.reject "Check-out date must be after check-in") := by
  have hmiss : datesMissingB r = false := by simp [datesMissingB, h4, h5]
  have hinv : datesInvalidB r = false := by simp [datesInvalidB, hin, hout]
  refine ⟨?_, ?_, ?_⟩
  · intro hteq hlt
    have hpast : pastB today r = false := by
      simp only [pastB, hin, hteq]
      simp
    have hord : orderErrB r = false := by
      simp only [orderErrB, hin, hout, decide_eq_false_iff_not]
      rw [hteq]
      exact not_le.mpr hlt
    simp [validateServer, h1, h2, h3, hmiss, hinv, hpast, hord, hin, hout]
  · intro hteq
    have hlt : tin < today := by
      rw [hteq]; unfold dayMs; linarith
    have hpast : pastB today r = true := by
      simp only [pastB, hin, decide_eq_true_eq]
      exact hlt
    constructor
    · simp [validateServer, h1, h2, h3, hmiss, hinv, hpast]
    · simp [validateFull, h1, h2, h3, hmiss, hinv, hpast]
  · intro hteq hnlt
    have hpast : pastB today r = false := by
      simp only [pastB, hin, decide_eq_false_iff_not]
      exact hnlt
    have hord : orderErrB r = true := by
      simp only [orderErrB, hin, hout, decide_eq_true_eq]
      rw [hteq]
    constructor
    · simp [validateServer, h1, h2, h3, hmiss, hinv, hpast, hord]
    · simp [validateFull, h1, h2, h3, hmiss, hinv, hpast, hord]

/-- C4, witness: with today 2026-10-11, a check-in of 2026-10-11 is
accepted, a check-in of 2026-10-10 is rejected as past, and a check-out
equal to the check-in is rejected for ordering. -/
theorem C4_witness :
    validateServer T0 scen1 = VOut.pass ⟨phoneStr scen1, T0, T0 + 2 * dayMs⟩ ∧
    validateServer T0 yesterdayReq = VOut.reject "Check-in date cannot be in the past" ∧
    validateServer T0 sameDayReq = VOut.reject "Check-out date must be after check-in" := by
  refine ⟨?_, ?_, ?_⟩
  · exact (C4_prop T0 scen1 T0 (T0 + 2 * dayMs) (by decide) (by decide) (by decide)
      (by decide) (by decide) (by decide) (by decide)).1 rfl (by decide)
  · exact ((C4_prop T0 yesterdayReq (T0 - dayMs) (T0 + 2 * dayMs) (by decide) (by decide)
      (by decide) (by decide) (by decide) (by decide) (by decide)).2.1 rfl).1
  · exact ((C4_prop T0 sameDayReq T0 T0 (by decide) (by decide) (by decide)
      (by decide) (by decide) (by decide) (by decide)).2.2 rfl (by decide)).1

/-- Rounding to two decimals is exact on a total built from the integer
rates 1200 or 1500, an integer night count and an integer room count. -/
theorem round2_total_exact (p : ℚ) (hp : p = 1200 ∨ p = 1500) (n k : ℤ) :
    round2 (p * (n : ℚ) * (k : ℚ) * (112 / 100)) = p * (n : ℚ) * (k : ℚ) * (112 / 100) := by
  rcases hp with h | h <;> subst h
  · have h2 : (1200 : ℚ) * (n : ℚ) * (k : ℚ) * (112 / 100) =
        ((1200 * n * k * 112 : ℤ) : ℚ) / 100 := by push_cast; ring
    rw [h2, round2_int_over_100]
  · have h2 : (1500 : ℚ) * (n : ℚ) * (k : ℚ) * (112 / 100) =
        ((1500 * n * k * 112 : ℤ) : ℚ) / 100 := by push_cast; ring
    rw [h2, round2_int_over_100]

/-- C2, amended: for every booking accepted by src/server.js the
persisted total is the full-precision value
pricePerNight × nights × rooms × 1.12 (no rounding is applied at
persistence); when the room count coerces to an integer this value is an
exact number of hundredths, so it also equals its own two-decimal
rounding.  (For a fractional room count, which neither validation block
excludes, the stored value differs from round2 of the formula — see the
counterexample; the response of src/server.js carries no total at all,
see C5.) -/
theorem C2_prop (today : ℚ) (now : ℤ) (id : ℕ) (r : RawRequest)
    (resp : SuccessResponse) (doc : BookingDoc) (v : Validated) (loc : String)
    (p : ℚ) (k n : ℤ)
    (hrun : bookServer today now true id r = BookOutcome.success resp doc)
    (hv : validateServer today r = VOut.pass v)
    (hloc : r.location = JSValue.str loc)
    (hp : bookingPriceOf loc = PriceVal.num p)
    (hk : toNumber r.rooms = some ((k : ℤ) : ℚ))
    (hn : n = nightsOf v) :
    doc.totalAmount = some (p * (n : ℚ) * (k : ℚ) * (112 / 100)) ∧
    doc.totalAmount = some (round2 (p * (n : ℚ) * (k : ℚ) * (112 / 100))) := by
  obtain ⟨v', loc', hv', hloc', hdoc, hresp⟩ := bookServer_success_inv hrun
  rw [hv] at hv'
  injection hv' with hveq
  rw [hloc] at hloc'
  injection hloc' with hloceq
  subst hveq
  subst hloceq
  have htot : doc.totalAmount =
      jsAdd (jsMul (jsMul (priceNum (PriceVal.num p)) (some ((nightsOf v : ℤ) : ℚ)))
          (some ((k : ℤ) : ℚ)))
        (jsMul (jsMul (jsMul (priceNum (PriceVal.num p)) (some ((nightsOf v : ℤ) : ℚ)))
          (some ((k : ℤ) : ℚ))) (some (12 / 100))) := by
    rw [hdoc]
    unfold mkDoc
    rw [hp, hk]
  simp only [priceNum, jsMul, jsAdd] at htot
  rw [← hn] at htot
  constructor
  · rw [htot]
    simp only [Option.some.injEq]
    ring
  · rw [htot, round2_total_exact p (bookingPriceOf_num hp) n k]
    simp only [Option.some.injEq]
    ring

/-- C2, counterexample to the claim as stated: the accepted booking with
room count 1.0001 persists the full-precision total 1344.1344, which is
not round2 of the formula (1344.13): no rounding convention is applied at
persistence time. -/
theorem C2_counterexample :
    persistedTotal (bookServer T0 77 true 5 fracRoomsReq) = some (some (840084 / 625)) ∧
    round2 (1200 * 1 * (10001 / 10000) * (112 / 100)) = 134413 / 100 ∧
    (840084 / 625 : ℚ) ≠ (134413 / 100 : ℚ) := by
  refine ⟨by decide, by decide, by decide⟩

/-- C2, witness: scenario 1 (Niladri, two nights, one room) persists
exactly 1500 × 2 × 1 × 1.12 = 3360, which equals its own two-decimal
rounding. -/
theorem C2_witness :
    (mkDoc 77 scen1 ⟨"9876543210", T0, T0 + 2 * dayMs⟩ "Niladri").totalAmount =
      some (1500 * ((2 : ℤ) : ℚ) * ((1 : ℤ) : ℚ) * (112 / 100)) ∧
    (mkDoc 77 scen1 ⟨"9876543210", T0, T0 + 2 * dayMs⟩ "Niladri").totalAmount =
      some (round2 (1500 * ((2 : ℤ) : ℚ) * ((1 : ℤ) : ℚ) * (112 / 100))) :=
  C2_prop T0 77 5 scen1 (serverResp 5)
    (mkDoc 77 scen1 ⟨"9876543210", T0, T0 + 2 * dayMs⟩ "Niladri")
    ⟨"9876543210", T0, T0 + 2 * dayMs⟩ "Niladri" 1500 1 2
    (by decide) (by decide) (by decide) (by decide) (by decide) (by decide)

/-- C5, amended: for every accepted booking whose store write succeeds,
the src/server.js response carries success: true, the store-assigned
bookingId and a message, but no totalAmount field; the
src/unnamed/part_000 response additionally carries the computed total,
rendered to two decimals. -/
theorem C5_prop :
    (∀ (today : ℚ) (now : ℤ) (id : ℕ) (r : RawRequest) (resp : SuccessResponse)
        (doc : BookingDoc),
      bookServer today now true id r = BookOutcome.success resp doc →
      resp.success = true ∧ resp.bookingId = id ∧
      resp.message = "Booking saved successfully" ∧ resp.totalAmount = none) ∧
    (∀ (today : ℚ) (now : ℤ) (id : ℕ) (r : RawRequest) (resp : SuccessResponse)
        (doc : BookingDoc),
      bookFull today now true id r = BookOutcome.success resp doc →
      resp.success = true ∧ resp.bookingId = id ∧
      resp.totalAmount = some (jsRound2 doc.totalAmount)) := by
  constructor
  · intro today now id r resp doc h
    obtain ⟨v, loc, _, _, _, hresp⟩ := bookServer_success_inv h
    subst hresp
    exact ⟨rfl, rfl, rfl, rfl⟩
  · intro today now id r resp doc h
    obtain ⟨v, loc, _, _, hdoc, hresp⟩ := bookFull_success_inv h
    subst hresp
    subst hdoc
    exact ⟨rfl, rfl, rfl⟩

/-- C5, counterexample to the claim as stated: the accepted scenario-1
booking gets a success response from src/server.js whose body has no
totalAmount field, while the src/unnamed/part_000 response carries the
rounded total 3360. -/
theorem C5_counterexample :
    respTotalField (bookServer T0 77 true 5 scen1) = some none ∧
    respTotalField (bookFull T0 77 true 5 scen1) = some (some (some 3360)) := by
  refine ⟨by decide, by decide⟩

/-- C5, witness: the success response for the accepted scenario-1 booking
carries success, the assigned identifier 5 and the fixed message, and no
total. -/
theorem C5_witness :
    (serverResp 5).success = true ∧ (serverResp 5).bookingId = 5 ∧
    (serverResp 5).message = "Booking saved successfully" ∧
    (serverResp 5).totalAmount = none :=
  C5_prop.1 T0 77 5 scen1 (serverResp 5)
    (mkDoc 77 scen1 ⟨"9876543210", T0, T0 + 2 * dayMs⟩ "Niladri") (by decide)

/-- The call `bcrypt.compare(...)` always throws: the bcrypt binding of
src/server.js line 6 is the string "bcrypt", and compare is not a
property of a string value. -/
theorem bcryptCompare_throws (p h : JSValue) :
    bcryptCompare p h = Except.error "TypeError: bcrypt.compare is not a function" := by
  unfold bcryptCompare
  rw [if_neg (by decide)]

/-- C6, amended: on a protected route, a missing (or falsy) bearer token
yields the 401 Unauthorized response, while a present token rejected by
jwt.verify yields the 403 Forbidden response — not the unauthenticated
one; in both cases the outcome is an error response, so the protected
handler is never run. -/
theorem C6_prop {α : Type} (verify : String → Option Identity)
    (authHeader : Option String) (handler : Identity → α) :
    (tokenOf authHeader = none →
      runProtected verify authHeader handler = RouteResult.errorRes 401 "Unauthorized") ∧
    (∀ t, tokenOf authHeader = some t → verify t = none →
      runProtected verify authHeader handler = RouteResult.errorRes 403 "Forbidden") := by
  constructor
  · intro h
    simp only [runProtected, h]
  · intro t ht hv
    simp only [runProtected, ht, hv]

/-- C6, counterexample to the claim as stated: a request carrying an
invalid bearer token gets the 403 Forbidden response, which is not the
401 Unauthorized response the claim requires for invalid credentials. -/
theorem C6_counterexample :
    runProtected (fun _ => none) (some "Bearer abc") (fun _ => (0 : ℕ)) =
      RouteResult.errorRes 403 "Forbidden" ∧
    (RouteResult.errorRes 403 "Forbidden" : RouteResult ℕ) ≠
      RouteResult.errorRes 401 "Unauthorized" := by
  refine ⟨by decide, by decide⟩

/-- C6, witness: a request with no Authorization header is answered 401
Unauthorized, and one with an unverifiable token 403 Forbidden; neither
outcome is a handled one. -/
theorem C6_witness :
    runProtected (fun _ => none) none (fun _ => (0 : ℕ)) =
      RouteResult.errorRes 401 "Unauthorized" ∧
    runProtected (fun _ => none) (some "Bearer tok") (fun _ => (0 : ℕ)) =
      RouteResult.errorRes 403 "Forbidden" :=
  ⟨(C6_prop (fun _ => none) none (fun _ => (0 : ℕ))).1 (by decide),
   (C6_prop (fun _ => none) (some "Bearer tok") (fun _ => (0 : ℕ))).2 "tok"
     (by decide) rfl⟩

/-- C7, amended: at creation the total is computed by the server — the
outcome is independent of any totalAmount property in the request body —
and the creation timestamp is stamped at persistence time; the delete
operation removes a record without touching the others; but the update
operation applies the client payload verbatim, so a payload that omits
totalAmount and createdAt leaves them unchanged while one that supplies
them overwrites them (see the counterexample). -/
theorem C7_prop :
    (∀ (today : ℚ) (now : ℤ) (storeUp : Bool) (id : ℕ) (r : RawRequest) (w : JSValue),
      bookServer today now storeUp id { r with bodyTotalAmount := w } =
        bookServer today now storeUp id r) ∧
    (∀ (today : ℚ) (now : ℤ) (storeUp : Bool) (id : ℕ) (r : RawRequest)
        (resp : SuccessResponse) (doc : BookingDoc),
      bookServer today now storeUp id r = BookOutcome.success resp doc →
      doc.createdAt = now) ∧
    (∀ (b : BookingDoc) (u : BookingUpdate), u.totalAmount = none →
      (applyUpdate b u).totalAmount = b.totalAmount) ∧
    (∀ (b : BookingDoc) (u : BookingUpdate), u.createdAt = none →
      (applyUpdate b u).createdAt = b.createdAt) ∧
    (∀ (st : Store) (i j : ℕ) (b : BookingDoc), j ≠ i → (j, b) ∈ st →
      (j, b) ∈ (deleteById st i).1) := by
  refine ⟨?_, ?_, ?_, ?_, ?_⟩
  · intro today now storeUp id r w
    cases r
    rfl
  · intro today now storeUp id r resp doc h
    obtain ⟨v, loc, _, _, hdoc, _⟩ := bookServer_success_inv h
    rw [hdoc]
    rfl
  · intro b u h
    simp [applyUpdate, h]
  · intro b u h
    simp [applyUpdate, h]
  · intro st i j b hj hb
    simp only [deleteById]
    cases hf : findById st i with
    | none => exact hb
    | some b2 =>
      exact List.mem_filter.mpr ⟨hb, by simp [hj]⟩

/-- C7, counterexample to the claim as stated: an update whose payload
carries totalAmount 1 and createdAt 999 replaces the stored total 3360
and timestamp 111 — the update path takes both from client input. -/
theorem C7_counterexample :
    (updateById [(1, doc0)] 1 clientTotalUpdate).2 =
      some { doc0 with totalAmount := some 1, createdAt := 999 } ∧
    doc0.totalAmount = some 3360 ∧ doc0.createdAt = 111 ∧
    (some (1 : ℚ) : JSNum) ≠ some 3360 ∧ (999 : ℤ) ≠ 111 := by
  refine ⟨by decide, by decide, by decide, by decide, by decide⟩

/-- C7, witness: an update that omits totalAmount and createdAt leaves
both unchanged, and the created scenario-1 booking is stamped with the
persistence time 77. -/
theorem C7_witness :
    (applyUpdate doc0 remarkUpdate).totalAmount = doc0.totalAmount ∧
    (applyUpdate doc0 remarkUpdate).createdAt = doc0.createdAt ∧
    (mkDoc 77 scen1 ⟨"9876543210", T0, T0 + 2 * dayMs⟩ "Niladri").createdAt = 77 :=
  ⟨C7_prop.2.2.1 doc0 remarkUpdate rfl,
   C7_prop.2.2.2.1 doc0 remarkUpdate rfl,
   C7_prop.2.1 T0 77 true 5 scen1 (serverResp 5)
     (mkDoc 77 scen1 ⟨"9876543210", T0, T0 + 2 * dayMs⟩ "Niladri") (by decide)⟩

/-- C8: updating a found booking returns the document produced by the
field-wise merge, and every field omitted from the partial payload
retains its previous value. -/
theorem C8_prop (st : Store) (i : ℕ) (b : BookingDoc) (u : BookingUpdate)
    (h : findById st i = some b) :
    (updateById st i u).2 = some (applyUpdate b u) ∧
    (u.name = none → (applyUpdate b u).name = b.name) ∧
    (u.phone = none → (applyUpdate b u).phone = b.phone) ∧
    (u.location = none → (applyUpdate b u).location = b.location) ∧
    (u.checkin = none → (applyUpdate b u).checkin = b.checkin) ∧
    (u.checkout = none → (applyUpdate b u).checkout = b.checkout) ∧
    (u.adults = none → (applyUpdate b u).adults = b.adults) ∧
    (u.children = none → (applyUpdate b u).children = b.children) ∧
    (u.rooms = none → (applyUpdate b u).rooms = b.rooms) ∧
    (u.totalAmount = none → (applyUpdate b u).totalAmount = b.totalAmount) ∧
    (u.createdAt = none → (applyUpdate b u).createdAt = b.createdAt) ∧
    (u.remark = none → (applyUpdate b u).remark = b.remark) := by
  refine ⟨?_, ?_, ?_, ?_, ?_, ?_, ?_, ?_, ?_, ?_, ?_, ?_⟩
  · simp only [updateById, h]
  · intro h2; simp [applyUpdate, h2]
  · intro h2; simp [applyUpdate, h2]
  · intro h2; simp [applyUpdate, h2]
  · intro h2; simp [applyUpdate, h2]
  · intro h2; simp [applyUpdate, h2]
  · intro h2; simp [applyUpdate, h2]
  · intro h2; simp [applyUpdate, h2]
  · intro h2; simp [applyUpdate, h2]
  · intro h2; simp [applyUpdate, h2]
  · intro h2; simp [applyUpdate, h2]
  · intro h2; simp [applyUpdate, h2]

/-- C8, witness: updating the stored booking with a remark-only payload
returns the merged document and leaves name and totalAmount unchanged. -/
theorem C8_witness :
    (updateById [(1, doc0)] 1 remarkUpdate).2 = some (applyUpdate doc0 remarkUpdate) ∧
    (applyUpdate doc0 remarkUpdate).name = doc0.name ∧
    (applyUpdate doc0 remarkUpdate).totalAmount = doc0.totalAmount := by
  have h := C8_prop [(1, doc0)] 1 doc0 remarkUpdate (by decide)
  exact ⟨h.1, h.2.1 rfl, h.2.2.2.2.2.2.2.2.2.1 rfl⟩

/-- C9: for every login request whose username is found in the user
store and that supplies a (truthy) password, the handler answers the
generic 500 server error and never issues a token, because the bcrypt
binding is the string "bcrypt" and the comparison call throws. -/
theorem C9_prop (findUser : JSValue → Option StoredUser) (username password : JSValue)
    (user : StoredUser) (hu : truthy username = true) (hp : truthy password = true)
    (hf : findUser username = some user) :
    loginHandler findUser username password = LoginResult.serverError ∧
    ∀ un ro, loginHandler findUser username password ≠ LoginResult.token un ro := by
  have hmain : loginHandler findUser username password = LoginResult.serverError := by
    simp [loginHandler, hu, hp, hf, bcryptCompare_throws]
  refine ⟨hmain, fun un ro => ?_⟩
  rw [hmain]
  simp

/-- A one-user store with the admin account, for the login witness. -/
def userStore1 : JSValue → Option StoredUser :=
  fun v => if v = JSValue.str "admin" then some ⟨"admin", "storedhash", "admin"⟩ else none

/-- C9, witness: logging in as the existing admin user with some password
yields the generic server error. -/
theorem C9_witness :
    loginHandler userStore1 (JSValue.str "admin") (JSValue.str "secret") =
      LoginResult.serverError :=
  (C9_prop userStore1 (JSValue.str "admin") (JSValue.str "secret")
    ⟨"admin", "storedhash", "admin"⟩ (by decide) (by decide) (by decide)).1

/-- C10: a location that equals a price-table key only after trimming is
priced by the raw-string lookup at the default 1200, while the accepted
booking stores the trimmed — listed — name. -/
theorem C10_prop (today : ℚ) (now : ℤ) (id : ℕ) (r : RawRequest)
    (resp : SuccessResponse) (doc : BookingDoc) (loc : String)
    (hloc : r.location = JSValue.str loc)
    (htrim : jsTrim loc = "Patia" ∨ jsTrim loc = "Niladri")
    (h1 : loc ≠ "Patia") (h2 : loc ≠ "Niladri")
    (hrun : bookServer today now true id r = BookOutcome.success resp doc) :
    bookingPriceOf loc = PriceVal.num 1200 ∧ doc.location = jsTrim loc := by
  have hproto : loc ∉ objectPrototypeProps := by
    intro hmem
    have heq := protoProps_trim loc hmem
    rcases htrim with ht | ht
    · exact h1 (by rw [← heq]; exact ht)
    · exact h2 (by rw [← heq]; exact ht)
  constructor
  · unfold bookingPriceOf
    rw [if_neg h1, if_neg h2, if_neg hproto]
  · obtain ⟨v, loc2, hv, hloc2, hdoc, _⟩ := bookServer_success_inv hrun
    rw [hloc] at hloc2
    injection hloc2 with hloceq
    subst hloceq
    rw [hdoc]
    rfl

/-- C10, witness: the padded location " Niladri " is priced at 1200 and
the accepted booking stores the trimmed listed name "Niladri". -/
theorem C10_witness :
    bookingPriceOf " Niladri " = PriceVal.num 1200 ∧
    (mkDoc 77 paddedLocReq ⟨"9876543210", T0, T0 + 2 * dayMs⟩ " Niladri ").location =
      jsTrim " Niladri " ∧
    jsTrim " Niladri " = "Niladri" := by
  have h := C10_prop T0 77 5 paddedLocReq (serverResp 5)
    (mkDoc 77 paddedLocReq ⟨"9876543210", T0, T0 + 2 * dayMs⟩ " Niladri ") " Niladri "
    rfl (Or.inr (by decide)) (by decide) (by decide) (by decide)
  exact ⟨h.1, h.2, by decide⟩
